import Mathlib

/-!
Verification development for the Live Broadcast Session subsystem of the
Hori-s.FM browser extension.

The embedding covers three parts of the code base:

* the DJ transition scheduler of src/src/extension/content.ts
  (tick loop, generation-completion callback, buffered playback);
* the LiveCallService of src/src/services/ytmApiService.ts
  (session ids, audio-chunk scheduling, interruption, teardown);
* the RemoteSocketSource relay adapter (unnamed source file part_002).

Each event handler of the original code is modelled as one atomic step of
a step function on an explicit state record; asynchronous completions are
delivered as events.  Clock values and audio durations are rationals.
-/

set_option maxHeartbeats 1000000

namespace HorisFM

namespace Content

/-- The DJState union type of content.ts. -/
inductive DJState where
  | IDLE
  | GENERATING
  | READY
  | PLAYING
  | COOLDOWN
  deriving DecidableEq, Repr

/-- The State record of content.ts: status, currentSongSig, bufferedAudio,
generatedForSig, lastTime.  Times are whole seconds here (the claims only
use integral positions). -/
structure State where
  status : DJState
  currentSongSig : String
  bufferedAudio : Option String
  generatedForSig : Option String
  lastTime : Int
  deriving DecidableEq, Repr

/-- The initial value of the state variable in content.ts. -/
def initialState : State :=
  { status := .IDLE
    currentSongSig := ""
    bufferedAudio := none
    generatedForSig := none
    lastTime := 0 }

/-- Events delivered to the content script:
a timer tick (with the observed title, artist, position, duration and a
playing flag that is false when the video element is absent or paused),
the GENERATE_INTRO response callback (tagged with the signature captured
at request time), the audio element ended handler, and the 5 second
cooldown timeout. -/
inductive Event where
  | tick (title artist : String) (pos dur : Int) (playing : Bool)
  | genComplete (tag : String) (respAudio : Option String)
  | playEnded
  | cooldownOver
  deriving DecidableEq, Repr

/-- playBufferedAudio of content.ts, up to starting the audio element:
early return on an empty buffer; context validation discarding a stale
buffer (status IDLE, buffer and tag cleared); otherwise status PLAYING and
the buffered audio is handed to the audio element (the second component). -/
def playBufferedAudio (s : State) : State × Option String :=
  match s.bufferedAudio with
  | none => (s, none)
  | some audio =>
    if s.generatedForSig ≠ some s.currentSongSig then
      ({ s with status := .IDLE, bufferedAudio := none, generatedForSig := none }, none)
    else
      ({ s with status := .PLAYING }, some audio)

/-- The reset logic at the top of the mainLoop tick: new-song reset when the
signature changed, seek reset when the position moved back by more than the
5 second tolerance, then lastTime is updated. -/
def applyResets (s : State) (sig : String) (pos : Int) : State :=
  let s1 :=
    if sig ≠ s.currentSongSig then
      { s with currentSongSig := sig, status := .IDLE
               bufferedAudio := none, generatedForSig := none }
    else s
  let s2 :=
    if s1.lastTime > pos + 5 then
      { s1 with status := .IDLE, bufferedAudio := none, generatedForSig := none }
    else s1
  { s2 with lastTime := pos }

/-- The IDLE branch of the mainLoop state machine: inside the generation
window (10 < timeLeft < 45) with non-empty title and artist, move to
GENERATING, tag generatedForSig with the current signature and issue the
generation request (second component).  The chrome.storage lookup is
modelled as immediate with the feature enabled. -/
def genPhase (s : State) (sig title artist : String) (timeLeft : Int) :
    State × Option String :=
  if s.status = .IDLE ∧ timeLeft < 45 ∧ timeLeft > 10 then
    if title = "" ∨ artist = "" then (s, none)
    else ({ s with status := .GENERATING, generatedForSig := some sig }, some sig)
  else (s, none)

/-- The READY branch of the mainLoop state machine: when timeLeft < 12,
invoke playBufferedAudio. -/
def playPhase (s : State) (timeLeft : Int) : State × Option String :=
  if s.status = .READY ∧ timeLeft < 12 then playBufferedAudio s
  else (s, none)

/-- Result of one content-script step: the new state, the audio handed to
the voice audio element this step (if any), and the generation request
issued this step (tagged with its signature), if any. -/
structure StepOut where
  state : State
  played : Option String
  request : Option String
  deriving DecidableEq, Repr

/-- The body of the mainLoop tick after the playing/duration guard:
signature and timeLeft computation, reset logic, IDLE branch, READY branch. -/
def tickStep (s : State) (title artist : String) (pos dur : Int) : StepOut :=
  let sig := title ++ "|" ++ artist
  let timeLeft := dur - pos
  let r := applyResets s sig pos
  let g := genPhase r sig title artist timeLeft
  let p := playPhase g.1 timeLeft
  ⟨p.1, p.2, g.2⟩

/-- The momentary state at which tickStep attempts playback (after the
reset logic and the IDLE branch, when the READY guard fires). -/
def tickAttempt (s : State) (title artist : String) (pos dur : Int) : Option State :=
  let sig := title ++ "|" ++ artist
  let timeLeft := dur - pos
  let r := (genPhase (applyResets s sig pos) sig title artist timeLeft).1
  if r.status = .READY ∧ timeLeft < 12 then some r else none

/-- One atomic event-handler execution of content.ts. -/
def step (s : State) : Event → StepOut
  | .tick title artist pos dur playing =>
    if playing = true ∧ dur ≠ 0 then tickStep s title artist pos dur
    else ⟨s, none, none⟩
  | .genComplete tag respAudio =>
    if s.currentSongSig ≠ tag then ⟨s, none, none⟩
    else
      match respAudio with
      | some a => ⟨{ s with bufferedAudio := some a, status := .READY }, none, none⟩
      | none => ⟨{ s with status := .COOLDOWN }, none, none⟩
  | .playEnded => ⟨{ s with status := .COOLDOWN, bufferedAudio := none }, none, none⟩
  | .cooldownOver =>
    if s.status = .COOLDOWN then ⟨{ s with status := .IDLE }, none, none⟩
    else ⟨s, none, none⟩

/-- The momentary state at which a tick attempts playback (after the reset
logic and the IDLE branch, when the READY guard fires); none when the step
makes no playback attempt. -/
def attemptState (s : State) : Event → Option State
  | .tick title artist pos dur playing =>
    if playing = true ∧ dur ≠ 0 then tickAttempt s title artist pos dur
    else none
  | _ => none

/-- Run a list of events, collecting every audio handed to the voice audio
element. -/
def run (s : State) : List Event → State × List String
  | [] => (s, [])
  | e :: es =>
    let o := step s e
    let rest := run o.state es
    (rest.1, o.played.toList ++ rest.2)

theorem playBufferedAudio_played (s : State) (a : String)
    (h : (playBufferedAudio s).2 = some a) :
    s.generatedForSig = some s.currentSongSig ∧ s.bufferedAudio = some a := by
  unfold playBufferedAudio at h
  cases hb : s.bufferedAudio with
  | none => rw [hb] at h; simp at h
  | some audio =>
    rw [hb] at h
    dsimp only at h
    by_cases hsig : s.generatedForSig ≠ some s.currentSongSig
    · rw [if_pos hsig] at h; simp at h
    · rw [if_neg hsig] at h
      push_neg at hsig
      simp at h
      exact ⟨hsig, by rw [h]⟩

theorem playBufferedAudio_mismatch (s : State)
    (h : s.generatedForSig ≠ some s.currentSongSig) :
    (playBufferedAudio s).2 = none ∧ (playBufferedAudio s).1.bufferedAudio = none := by
  unfold playBufferedAudio
  cases hb : s.bufferedAudio with
  | none => exact ⟨rfl, hb⟩
  | some audio =>
    dsimp only
    rw [if_pos h]
    exact ⟨rfl, rfl⟩

theorem tickStep_play_sound (s : State) (title artist : String) (pos dur : Int)
    (a : String) (h : (tickStep s title artist pos dur).played = some a) :
    ∃ m, tickAttempt s title artist pos dur = some m ∧
      m.generatedForSig = some m.currentSongSig ∧ m.bufferedAudio = some a := by
  unfold tickStep at h
  dsimp only at h
  unfold playPhase at h
  split_ifs at h with hr
  obtain ⟨h1, h2⟩ := playBufferedAudio_played _ a h
  refine ⟨_, ?_, h1, h2⟩
  unfold tickAttempt
  dsimp only
  rw [if_pos hr]

theorem tickStep_mismatch_discard (s : State) (title artist : String)
    (pos dur : Int) (m : State)
    (hm : tickAttempt s title artist pos dur = some m)
    (hsig : m.generatedForSig ≠ some m.currentSongSig) :
    (tickStep s title artist pos dur).played = none ∧
      (tickStep s title artist pos dur).state.bufferedAudio = none := by
  unfold tickAttempt at hm
  dsimp only at hm
  unfold tickStep playPhase
  dsimp only
  split_ifs at hm with hr
  obtain rfl : m = (genPhase (applyResets s (title ++ "|" ++ artist) pos)
      (title ++ "|" ++ artist) title artist (dur - pos)).1 := by
    cases hm; rfl
  rw [if_pos hr]
  exact playBufferedAudio_mismatch _ hsig

/-- Claim C1: across every sequence of scheduler ticks and
generation-completion events, buffered audio is handed to the voice audio
element only when, at the moment the playback attempt is made (after the
reset logic of the same tick), generatedForSig equals currentSongSig and
the played audio is exactly the buffered audio; at a playback attempt whose
generatedForSig differs from the live signature, nothing is played and the
buffer is discarded. -/
theorem c1_stale_buffer_never_played :
    (∀ (s : State) (e : Event) (a : String),
        (step s e).played = some a →
        ∃ m, attemptState s e = some m ∧
          m.generatedForSig = some m.currentSongSig ∧
          m.bufferedAudio = some a) ∧
    (∀ (s : State) (e : Event) (m : State),
        attemptState s e = some m →
        m.generatedForSig ≠ some m.currentSongSig →
        (step s e).played = none ∧ (step s e).state.bufferedAudio = none) := by
  constructor
  · intro s e a h
    cases e with
    | tick title artist pos dur playing =>
      simp only [step] at h
      simp only [attemptState]
      split_ifs at h ⊢ with hc
      exact tickStep_play_sound s title artist pos dur a h
    | genComplete tag respAudio =>
      simp only [step] at h
      cases respAudio <;> split_ifs at h
    | playEnded => simp only [step] at h; simp at h
    | cooldownOver =>
      simp only [step] at h
      split_ifs at h
  · intro s e m hm hsig
    cases e with
    | tick title artist pos dur playing =>
      simp only [attemptState] at hm
      simp only [step]
      split_ifs at hm ⊢ with hc
      exact tickStep_mismatch_discard s title artist pos dur m hm hsig
    | genComplete tag respAudio => simp [attemptState] at hm
    | playEnded => simp [attemptState] at hm
    | cooldownOver => simp [attemptState] at hm

/-- Claim C1 witness: a concrete playback with matching signatures, and a
concrete attempted playback with a cleared tag that is discarded. -/
theorem c1_witness :
    (∃ m, attemptState
        { status := .READY, currentSongSig := "T|A", bufferedAudio := some "aud"
          generatedForSig := some "T|A", lastTime := 100 }
        (.tick "T" "A" 190 200 true) = some m ∧
        m.generatedForSig = some m.currentSongSig ∧
        m.bufferedAudio = some "aud") ∧
    ((step
        { status := .READY, currentSongSig := "T|A", bufferedAudio := some "aud"
          generatedForSig := none, lastTime := 100 }
        (.tick "T" "A" 190 200 true)).played = none ∧
      (step
        { status := .READY, currentSongSig := "T|A", bufferedAudio := some "aud"
          generatedForSig := none, lastTime := 100 }
        (.tick "T" "A" 190 200 true)).state.bufferedAudio = none) :=
  ⟨c1_stale_buffer_never_played.1
      { status := .READY, currentSongSig := "T|A", bufferedAudio := some "aud"
        generatedForSig := some "T|A", lastTime := 100 }
      (.tick "T" "A" 190 200 true) "aud" (by decide),
    c1_stale_buffer_never_played.2
      { status := .READY, currentSongSig := "T|A", bufferedAudio := some "aud"
        generatedForSig := none, lastTime := 100 }
      (.tick "T" "A" 190 200 true)
      { status := .READY, currentSongSig := "T|A", bufferedAudio := some "aud"
        generatedForSig := none, lastTime := 190 }
      (by decide) (by decide)⟩

/-- Claim C6 counterexample: a generation request tagged for song A|X
completes after the track changed to B|Y.  The response is discarded, but
the scheduler does NOT move to COOLDOWN: the genComplete handler returns
without touching the state, so the status stays IDLE (set by the
track-change reset). -/
theorem c6_counterexample :
    (run initialState
        [.tick "A" "X" 160 200 true,
         .tick "B" "Y" 20 200 true,
         .genComplete "A|X" (some "AUD")]).1.status ≠ DJState.COOLDOWN ∧
    (run initialState
        [.tick "A" "X" 160 200 true,
         .tick "B" "Y" 20 200 true,
         .genComplete "A|X" (some "AUD")]).1.status = DJState.IDLE ∧
    (run initialState
        [.tick "A" "X" 160 200 true,
         .tick "B" "Y" 20 200 true,
         .genComplete "A|X" (some "AUD")]).1.bufferedAudio = none := by decide

/-- Claim C6 (amended): when a generation-completion callback arrives and
currentSongSig no longer equals the tag the request was generated for, the
returned audio is discarded (never buffered) and the scheduler state is
left entirely unchanged (no move to COOLDOWN); when the signatures still
match and audio is present, the audio is stored and the scheduler moves to
READY (and with a matching tag but no audio it moves to COOLDOWN). -/
theorem c6_completion_handling :
    (∀ (s : State) (tag : String) (respAudio : Option String),
        s.currentSongSig ≠ tag →
        step s (.genComplete tag respAudio) = ⟨s, none, none⟩) ∧
    (∀ (s : State) (tag a : String),
        s.currentSongSig = tag →
        step s (.genComplete tag (some a)) =
          ⟨{ s with bufferedAudio := some a, status := .READY }, none, none⟩) ∧
    (∀ (s : State) (tag : String),
        s.currentSongSig = tag →
        step s (.genComplete tag none) =
          ⟨{ s with status := .COOLDOWN }, none, none⟩) := by
  refine ⟨?_, ?_, ?_⟩
  · intro s tag respAudio htag
    simp [step, htag]
  · intro s tag a htag
    simp [step, htag]
  · intro s tag htag
    simp [step, htag]

/-- Claim C6 witness: the amended behaviour at concrete states. -/
theorem c6_witness :
    step { status := .IDLE, currentSongSig := "B|Y", bufferedAudio := none
           generatedForSig := none, lastTime := 20 }
        (.genComplete "A|X" (some "AUD")) =
      ⟨{ status := .IDLE, currentSongSig := "B|Y", bufferedAudio := none
         generatedForSig := none, lastTime := 20 }, none, none⟩ ∧
    step { status := .GENERATING, currentSongSig := "A|X", bufferedAudio := none
           generatedForSig := some "A|X", lastTime := 160 }
        (.genComplete "A|X" (some "AUD")) =
      ⟨{ status := .READY, currentSongSig := "A|X", bufferedAudio := some "AUD"
         generatedForSig := some "A|X", lastTime := 160 }, none, none⟩ :=
  ⟨c6_completion_handling.1
      { status := .IDLE, currentSongSig := "B|Y", bufferedAudio := none
        generatedForSig := none, lastTime := 20 } "A|X" (some "AUD") (by decide),
    c6_completion_handling.2.1
      { status := .GENERATING, currentSongSig := "A|X", bufferedAudio := none
        generatedForSig := some "A|X", lastTime := 160 } "A|X" "AUD" (by decide)⟩

/-- Claim C8 counterexample: track Song A by Artist A, duration 200,
position 160 starts a generation; a seek back to position 10 resets the
state; but when the generation result arrives it is NOT discarded — the
signature still matches (same song), so the handler buffers the audio and
moves to READY. -/
theorem c8_counterexample :
    (run initialState
        [.tick "Song A" "Artist A" 160 200 true,
         .tick "Song A" "Artist A" 10 200 true,
         .genComplete "Song A|Artist A" (some "AUD")]).1.bufferedAudio = some "AUD" ∧
    (run initialState
        [.tick "Song A" "Artist A" 160 200 true,
         .tick "Song A" "Artist A" 10 200 true,
         .genComplete "Song A|Artist A" (some "AUD")]).1.status = DJState.READY := by
  decide

/-- Claim C8 (amended): the tick at duration 200, position 160 moves IDLE
to GENERATING tagged Song A|Artist A and issues the request; the seek back
to position 10 resets to IDLE clearing buffer and tag; the arriving result
is then re-buffered (the signature still matches) and the state moves to
READY with generatedForSig still cleared; the buffer is finally discarded
unplayed at the playback attempt near the end of the track, and nothing is
ever played over the whole scenario. -/
theorem c8_seek_scenario :
    (step initialState (.tick "Song A" "Artist A" 160 200 true)).state.status
        = DJState.GENERATING ∧
    (step initialState (.tick "Song A" "Artist A" 160 200 true)).state.generatedForSig
        = some "Song A|Artist A" ∧
    (step initialState (.tick "Song A" "Artist A" 160 200 true)).request
        = some "Song A|Artist A" ∧
    (run initialState
        [.tick "Song A" "Artist A" 160 200 true,
         .tick "Song A" "Artist A" 10 200 true]).1 =
      { status := .IDLE, currentSongSig := "Song A|Artist A", bufferedAudio := none
        generatedForSig := none, lastTime := 10 } ∧
    (run initialState
        [.tick "Song A" "Artist A" 160 200 true,
         .tick "Song A" "Artist A" 10 200 true,
         .genComplete "Song A|Artist A" (some "AUD")]).1 =
      { status := .READY, currentSongSig := "Song A|Artist A", bufferedAudio := some "AUD"
        generatedForSig := none, lastTime := 10 } ∧
    (run initialState
        [.tick "Song A" "Artist A" 160 200 true,
         .tick "Song A" "Artist A" 10 200 true,
         .genComplete "Song A|Artist A" (some "AUD"),
         .tick "Song A" "Artist A" 190 200 true]).1 =
      { status := .IDLE, currentSongSig := "Song A|Artist A", bufferedAudio := none
        generatedForSig := none, lastTime := 190 } ∧
    (run initialState
        [.tick "Song A" "Artist A" 160 200 true,
         .tick "Song A" "Artist A" 10 200 true,
         .genComplete "Song A|Artist A" (some "AUD"),
         .tick "Song A" "Artist A" 190 200 true]).2 = [] := by
  decide

end Content

namespace Live

/-- The mutable fields of the LiveCallService class of ytmApiService.ts.
Audio contexts, the media stream, the session promise, the config and the
silence interval are modelled by presence booleans; liveSources is the set
of still-playing AudioBufferSourceNode objects, represented by the ids
they were created with (nextSrcId is the model bookkeeping for fresh ids);
clock values and durations are rationals (seconds). -/
structure LCState where
  currentSessionId : Nat
  isLiveActive : Bool
  liveNextStartTime : ℚ
  liveSources : List Nat
  nextSrcId : Nat
  liveStream : Bool
  liveInputContext : Bool
  liveOutputContext : Bool
  hasConfig : Bool
  liveSession : Bool
  liveSilenceInterval : Bool
  deriving DecidableEq, Repr

/-- The field initializers of the LiveCallService class. -/
def lcInitial : LCState :=
  { currentSessionId := 0
    isLiveActive := false
    liveNextStartTime := 0
    liveSources := []
    nextSrcId := 0
    liveStream := false
    liveInputContext := false
    liveOutputContext := false
    hasConfig := false
    liveSession := false
    liveSilenceInterval := false }

/-- Observable outputs of one LiveCallService step: callbacks invoked
(onStatusChange, onUnrecoverableError, onCallEnd), an audio chunk being
scheduled on the output context (source id, start time, duration), a
scheduled source being stopped, and a deferred cleanupSession registered
via setTimeout (graceful flag and delay in seconds). -/
inductive LOut where
  | statusChange (msg : String)
  | unrecoverableError
  | callEnd
  | scheduled (srcId : Nat) (start dur : ℚ)
  | stopped (srcId : Nat)
  | deferCleanup (graceful : Bool) (delay : ℚ)
  deriving DecidableEq, Repr

/-- Events driving the LiveCallService.  Each handler registered by
startSession captures the session id current at registration time; events
from those handlers carry that captured id.  now is the output context
currentTime at the moment the handler runs. -/
inductive LEvent where
  | startOk
  | startFail
  | msgInterrupted (sid : Nat) (now : ℚ)
  | msgAudio (sid : Nat) (dur now : ℚ)
  | msgToolEndCall (sid : Nat) (now : ℚ)
  | srcEnded (sid : Nat) (srcId : Nat)
  | wsClose (sid : Nat) (now : ℚ)
  | wsError (sid : Nat)
  | cleanupCall (graceful : Bool)
  deriving DecidableEq, Repr

/-- cleanupSession of ytmApiService.ts: early return when no session is
active; otherwise deactivate, drop the session reference, stop the
microphone, close the input context and clear the silence interval —
scheduled sources are NOT stopped; when no source is still playing, close
the output context, reset liveNextStartTime and (if graceful and a config
is present) invoke onCallEnd; otherwise defer the final release to the
ended handlers. -/
def cleanupSession (s : LCState) (graceful : Bool) : LCState × List LOut :=
  if s.isLiveActive = false then (s, [])
  else if s.liveSources = [] then
    ({ s with isLiveActive := false, liveSession := false
              liveStream := false, liveInputContext := false
              liveSilenceInterval := false
              liveOutputContext := false, liveNextStartTime := 0 },
      if graceful = true ∧ s.hasConfig = true then [LOut.callEnd] else [])
  else
    ({ s with isLiveActive := false, liveSession := false
              liveStream := false, liveInputContext := false
              liveSilenceInterval := false }, [])

/-- The synchronous prefix of startSession: increment the session id, store
the config, activate, reset the schedule time and clear the source set. -/
def startFields (s : LCState) : LCState :=
  { s with currentSessionId := s.currentSessionId + 1
           hasConfig := true
           isLiveActive := true
           liveNextStartTime := 0
           liveSources := [] }

/-- One atomic handler execution of the LiveCallService.

startOk is a startSession call whose setup succeeds; startFail one whose
try block throws (input-device acquisition or backend connection failure):
the catch invokes onUnrecoverableError and cleanupSession(false).

msgInterrupted, msgAudio, msgToolEndCall are the onmessage branches: none
of them compares its captured sid with currentSessionId.  srcEnded is the
ended listener of a scheduled source (deletes the source first, then
ignores stale session ids, then performs the final release if the session
is inactive and no source remains).  wsClose and wsError are the onclose
and onerror callbacks.  cleanupCall is an invocation of cleanupSession
(directly or from a timer registered earlier). -/
def lcStep (s : LCState) : LEvent → LCState × List LOut
  | .startOk =>
    let s1 := startFields s
    ({ s1 with liveInputContext := true, liveOutputContext := true
               liveStream := true, liveSession := true },
      [LOut.statusChange "CONNECTING CALL..."])
  | .startFail =>
    let s1 := { startFields s with liveInputContext := true, liveOutputContext := true }
    let c := cleanupSession s1 false
    (c.1, LOut.statusChange "CONNECTING CALL..." :: LOut.unrecoverableError :: c.2)
  | .msgInterrupted _sid now =>
    ({ s with liveSources := []
              liveNextStartTime := if s.liveOutputContext = true then now else 0 },
      s.liveSources.map LOut.stopped)
  | .msgAudio _sid dur now =>
    if s.liveOutputContext = true then
      let start := max s.liveNextStartTime now
      ({ s with liveNextStartTime := start + dur
                liveSources := s.liveSources ++ [s.nextSrcId]
                nextSrcId := s.nextSrcId + 1 },
        [LOut.scheduled s.nextSrcId start dur])
    else (s, [])
  | .msgToolEndCall _sid now =>
    if s.liveOutputContext = true then
      (s, [LOut.deferCleanup true (max 0 (s.liveNextStartTime - now) + 1)])
    else (s, [LOut.deferCleanup true 1])
  | .srcEnded sid srcId =>
    let s1 := { s with liveSources := s.liveSources.erase srcId }
    if sid ≠ s1.currentSessionId then (s1, [])
    else if s1.isLiveActive = false ∧ s1.liveSources = [] then
      ({ s1 with liveOutputContext := false },
        if s1.hasConfig = true then [LOut.callEnd] else [])
    else (s1, [])
  | .wsClose _sid now =>
    if s.isLiveActive = true then
      if s.liveOutputContext = true then
        (s, [LOut.deferCleanup true (max 0 (s.liveNextStartTime - now) + 1 / 2)])
      else cleanupSession s true
    else (s, [])
  | .wsError _sid =>
    let c := cleanupSession s false
    (c.1, c.2 ++ if s.hasConfig = true then [LOut.unrecoverableError] else [])
  | .cleanupCall graceful => cleanupSession s graceful

/-- Run a list of LiveCallService events, concatenating the outputs. -/
def lcRun (s : LCState) : List LEvent → LCState × List LOut
  | [] => (s, [])
  | e :: es =>
    let o := lcStep s e
    let r := lcRun o.1 es
    (r.1, o.2 ++ r.2)

/-- The (start, duration) pairs of the chunks scheduled in an output list. -/
def schedOf (outs : List LOut) : List (ℚ × ℚ) :=
  outs.filterMap fun o =>
    match o with
    | .scheduled _ st d => some (st, d)
    | _ => none

/-- Recognises an inbound audio chunk event with a nonnegative duration. -/
def isNonnegAudio : LEvent → Bool
  | .msgAudio _ d _ => decide (0 ≤ d)
  | _ => false

theorem lcAudioRun_invariant (es : List LEvent) : ∀ (s : LCState),
    s.liveOutputContext = true →
    (∀ e ∈ es, isNonnegAudio e = true) →
    (lcRun s es).1.liveOutputContext = true ∧
    s.liveNextStartTime ≤ (lcRun s es).1.liveNextStartTime ∧
    (∀ p ∈ schedOf (lcRun s es).2,
        s.liveNextStartTime ≤ p.1 ∧
        p.1 + p.2 ≤ (lcRun s es).1.liveNextStartTime ∧ 0 ≤ p.2) ∧
    (schedOf (lcRun s es).2).Pairwise (fun a b => a.1 + a.2 ≤ b.1) := by
  induction es with
  | nil =>
    intro s hctx _
    refine ⟨hctx, le_refl _, ?_, ?_⟩ <;> simp [lcRun, schedOf]
  | cons e es ih =>
    intro s hctx hall
    have he := hall e (List.mem_cons_self e es)
    have hes : ∀ x ∈ es, isNonnegAudio x = true :=
      fun x hx => hall x (List.mem_cons_of_mem e hx)
    cases e with
    | msgAudio sid d t =>
      have hd : (0:ℚ) ≤ d := by simpa [isNonnegAudio] using he
      set s1 : LCState :=
        { s with liveNextStartTime := max s.liveNextStartTime t + d
                 liveSources := s.liveSources ++ [s.nextSrcId]
                 nextSrcId := s.nextSrcId + 1 } with hs1
      have hstep : lcStep s (.msgAudio sid d t) =
          (s1, [LOut.scheduled s.nextSrcId (max s.liveNextStartTime t) d]) := by
        simp [lcStep, hctx, hs1]
      have hrun : lcRun s (LEvent.msgAudio sid d t :: es) =
          ((lcRun s1 es).1,
            LOut.scheduled s.nextSrcId (max s.liveNextStartTime t) d ::
              (lcRun s1 es).2) := by
        show ((lcRun (lcStep s (.msgAudio sid d t)).1 es).1,
              (lcStep s (.msgAudio sid d t)).2 ++
                (lcRun (lcStep s (.msgAudio sid d t)).1 es).2) = _
        rw [hstep]
        rfl
      have hctx1 : s1.liveOutputContext = true := hctx
      have hnext1 : s1.liveNextStartTime = max s.liveNextStartTime t + d := rfl
      obtain ⟨ihctx, ihle, ihmem, ihpw⟩ := ih s1 hctx1 hes
      have hadv : s.liveNextStartTime ≤ s1.liveNextStartTime := by
        rw [hnext1]
        exact le_trans (le_max_left _ _) (le_add_of_nonneg_right hd)
      rw [hrun]
      have hsched : schedOf (LOut.scheduled s.nextSrcId (max s.liveNextStartTime t) d ::
              (lcRun s1 es).2)
          = (max s.liveNextStartTime t, d) :: schedOf (lcRun s1 es).2 := rfl
      refine ⟨ihctx, le_trans hadv ihle, ?_, ?_⟩
      · intro p hp
        rw [hsched] at hp
        rcases List.mem_cons.1 hp with rfl | hp1
        · refine ⟨le_max_left _ _, ?_, hd⟩
          calc max s.liveNextStartTime t + d = s1.liveNextStartTime := by rw [hnext1]
            _ ≤ (lcRun s1 es).1.liveNextStartTime := ihle
        · obtain ⟨h1, h2, h3⟩ := ihmem p hp1
          exact ⟨le_trans hadv h1, h2, h3⟩
      · rw [hsched]
        refine List.Pairwise.cons ?_ ihpw
        intro b hb
        calc (max s.liveNextStartTime t, d).1 + (max s.liveNextStartTime t, d).2
            = s1.liveNextStartTime := by rw [hnext1]
          _ ≤ b.1 := (ihmem b hb).1
    | startOk => simp [isNonnegAudio] at he
    | startFail => simp [isNonnegAudio] at he
    | msgInterrupted sid now => simp [isNonnegAudio] at he
    | msgToolEndCall sid now => simp [isNonnegAudio] at he
    | srcEnded sid srcId => simp [isNonnegAudio] at he
    | wsClose sid now => simp [isNonnegAudio] at he
    | wsError sid => simp [isNonnegAudio] at he
    | cleanupCall g => simp [isNonnegAudio] at he

/-- Claim C2: every inbound audio chunk is scheduled to start at
max(liveNextStartTime, now) and liveNextStartTime then advances by the
chunk duration; consequently, over any sequence of inbound chunks with
nonnegative durations, each scheduled interval ends no later than the next
one starts (no overlap) and the scheduled start times are non-decreasing. -/
theorem c2_chunk_scheduling :
    (∀ (s : LCState) (sid : Nat) (dur now : ℚ),
        s.liveOutputContext = true →
        lcStep s (.msgAudio sid dur now) =
          ({ s with liveNextStartTime := max s.liveNextStartTime now + dur
                    liveSources := s.liveSources ++ [s.nextSrcId]
                    nextSrcId := s.nextSrcId + 1 },
            [LOut.scheduled s.nextSrcId (max s.liveNextStartTime now) dur])) ∧
    (∀ (s : LCState) (es : List LEvent),
        s.liveOutputContext = true →
        (∀ e ∈ es, isNonnegAudio e = true) →
        (schedOf (lcRun s es).2).Pairwise (fun a b => a.1 + a.2 ≤ b.1) ∧
        (schedOf (lcRun s es).2).Pairwise (fun a b => a.1 ≤ b.1)) := by
  constructor
  · intro s sid dur now hctx
    simp [lcStep, hctx]
  · intro s es hctx hall
    obtain ⟨-, -, hmem, hpw⟩ := lcAudioRun_invariant es s hctx hall
    refine ⟨hpw, ?_⟩
    refine hpw.imp_of_mem ?_
    intro a b ha _ hab
    have h0 : 0 ≤ a.2 := (hmem a ha).2.2
    calc a.1 ≤ a.1 + a.2 := le_add_of_nonneg_right h0
      _ ≤ b.1 := hab

/-- The LiveCallService state right after a first successful startSession. -/
def lcLive1 : LCState := (lcStep lcInitial .startOk).1

/-- Claim C2 witness: two concrete chunks (durations 2 and 3, arriving at
times 0 and 1) on a live session. -/
theorem c2_witness :
    lcStep lcLive1 (.msgAudio 1 2 0) =
      ({ lcLive1 with liveNextStartTime := max lcLive1.liveNextStartTime 0 + 2
                      liveSources := lcLive1.liveSources ++ [lcLive1.nextSrcId]
                      nextSrcId := lcLive1.nextSrcId + 1 },
        [LOut.scheduled lcLive1.nextSrcId (max lcLive1.liveNextStartTime 0) 2]) ∧
    (schedOf (lcRun lcLive1 [.msgAudio 1 2 0, .msgAudio 1 3 1]).2).Pairwise
        (fun a b => a.1 + a.2 ≤ b.1) ∧
    (schedOf (lcRun lcLive1 [.msgAudio 1 2 0, .msgAudio 1 3 1]).2).Pairwise
        (fun a b => a.1 ≤ b.1) :=
  ⟨c2_chunk_scheduling.1 lcLive1 1 2 0 (by decide),
    (c2_chunk_scheduling.2 lcLive1 [.msgAudio 1 2 0, .msgAudio 1 3 1]
        (by decide) (by decide)).1,
    (c2_chunk_scheduling.2 lcLive1 [.msgAudio 1 2 0, .msgAudio 1 3 1]
        (by decide) (by decide)).2⟩

theorem cleanupSession_sources (s : LCState) (g : Bool) :
    (cleanupSession s g).1.liveSources = s.liveSources := by
  unfold cleanupSession
  split_ifs <;> rfl

theorem cleanupSession_outs (s : LCState) (g : Bool) :
    (cleanupSession s g).2 = [] ∨ (cleanupSession s g).2 = [LOut.callEnd] := by
  unfold cleanupSession
  split_ifs <;> simp

theorem cleanupSession_nonGraceful_outs (s : LCState) :
    (cleanupSession s false).2 = [] := by
  unfold cleanupSession
  split_ifs with h1 h2 h3
  · rfl
  · exact absurd h3.1 (by simp)
  · rfl
  · rfl

theorem cleanupSession_release (s : LCState) (g : Bool)
    (h : LOut.callEnd ∈ (cleanupSession s g).2) :
    (cleanupSession s g).1.liveSources = [] ∧
    (cleanupSession s g).1.liveOutputContext = false := by
  unfold cleanupSession at h ⊢
  split_ifs at h ⊢ with h1 h2 h3 <;> simp_all

theorem cleanupSession_ctx_close (s : LCState) (g : Bool)
    (hc : s.liveOutputContext = true)
    (h : (cleanupSession s g).1.liveOutputContext = false) :
    (cleanupSession s g).1.liveSources = [] := by
  unfold cleanupSession at h ⊢
  split_ifs at h ⊢ with h1 h2 <;> simp_all

theorem cleanupSession_inactive_noop (s : LCState) (g : Bool)
    (h : s.isLiveActive = false) :
    cleanupSession s g = (s, []) := by
  unfold cleanupSession
  rw [if_pos h]

theorem cleanupSession_deactivates (s : LCState) (g : Bool) :
    (cleanupSession s g).1.isLiveActive = false := by
  unfold cleanupSession
  split_ifs with h1
  · exact h1
  all_goals rfl

/-- The LiveCallService state after startSession was called twice in
succession: currentSessionId is 2 and the session-1 handlers are still
attached to the first backend connection. -/
def lcLive2 : LCState := (lcStep lcLive1 .startOk).1

/-- Claim C3 defect evidence: after two startSession calls
(currentSessionId = 2), an audio-chunk event tagged with the first session
id is NOT ignored — it schedules audio and advances liveNextStartTime —
and an interrupted event tagged with the first session id clears the
second session's scheduled sources.  Only the srcEnded handler compares
its captured session id with currentSessionId. -/
theorem c3_stale_events_mutate_state :
    lcLive2.currentSessionId = 2 ∧
    lcLive2.liveNextStartTime = 0 ∧
    (lcStep lcLive2 (.msgAudio 1 2 3)).1.liveNextStartTime = 5 ∧
    (lcStep lcLive2 (.msgAudio 1 2 3)).2 = [LOut.scheduled 0 3 2] ∧
    (lcStep lcLive2 (.msgAudio 2 2 0)).1.liveSources = [0] ∧
    (lcStep (lcStep lcLive2 (.msgAudio 2 2 0)).1 (.msgInterrupted 1 1)).1.liveSources
        = [] ∧
    (lcStep (lcStep lcLive2 (.msgAudio 2 2 0)).1 (.msgInterrupted 1 1)).2
        = [LOut.stopped 0] := by
  norm_num [lcStep, lcLive2, lcLive1, lcInitial, startFields]

/-- Claim C4: when the backend signals an interruption, every scheduled
source is stopped, the set of active sources is emptied, and
liveNextStartTime is reset to the current time; a chunk arriving at any
time t at or after the interruption is then scheduled to start at t itself
rather than at the previously computed future time. -/
theorem c4_interrupt_barge_in :
    ∀ (s : LCState) (sid : Nat) (now : ℚ),
      s.liveOutputContext = true →
      (lcStep s (.msgInterrupted sid now)).1.liveSources = [] ∧
      (lcStep s (.msgInterrupted sid now)).1.liveNextStartTime = now ∧
      (lcStep s (.msgInterrupted sid now)).2 = s.liveSources.map LOut.stopped ∧
      (∀ (sid2 : Nat) (d t : ℚ), now ≤ t →
        (lcStep (lcStep s (.msgInterrupted sid now)).1 (.msgAudio sid2 d t)).2 =
          [LOut.scheduled (lcStep s (.msgInterrupted sid now)).1.nextSrcId t d]) := by
  intro s sid now hctx
  refine ⟨by simp [lcStep], by simp [lcStep, hctx], by simp [lcStep], ?_⟩
  intro sid2 d t ht
  set s2 := (lcStep s (.msgInterrupted sid now)).1 with hs2
  have hctx2 : s2.liveOutputContext = true := by
    rw [hs2]; simpa [lcStep] using hctx
  have hnext : s2.liveNextStartTime = now := by
    rw [hs2]; simp [lcStep, hctx]
  simp [lcStep, hctx2, hnext, max_eq_right ht]

/-- A live state with two scheduled sources, used as concrete input. -/
def c4WitState : LCState :=
  { lcLive1 with liveSources := [0, 1], liveNextStartTime := 10, nextSrcId := 2 }

/-- Claim C4 witness: interruption at time 4 on a session with two
scheduled sources and a future liveNextStartTime of 10. -/
theorem c4_witness :
    (lcStep c4WitState (.msgInterrupted 1 4)).1.liveSources = [] ∧
    (lcStep c4WitState (.msgInterrupted 1 4)).1.liveNextStartTime = 4 ∧
    (lcStep c4WitState (.msgInterrupted 1 4)).2 = c4WitState.liveSources.map LOut.stopped ∧
    (∀ (sid2 : Nat) (d t : ℚ), 4 ≤ t →
      (lcStep (lcStep c4WitState (.msgInterrupted 1 4)).1 (.msgAudio sid2 d t)).2 =
        [LOut.scheduled (lcStep c4WitState (.msgInterrupted 1 4)).1.nextSrcId t d]) :=
  c4_interrupt_barge_in c4WitState 1 4 (by decide)

/-- Claim C5: cleanupSession leaves scheduled sources playing (it never
stops one and never removes one from the set); whenever a step emits the
end-of-call notification, or closes the output pipeline, no scheduled
chunk remains after that step; and a cleanupSession on an active session
with no scheduled chunk performs the release immediately. -/
theorem c5_two_phase_teardown :
    (∀ (s : LCState) (g : Bool),
        (lcStep s (.cleanupCall g)).1.liveSources = s.liveSources ∧
        (∀ i, LOut.stopped i ∉ (lcStep s (.cleanupCall g)).2)) ∧
    (∀ (s : LCState) (e : LEvent),
        LOut.callEnd ∈ (lcStep s e).2 →
        (lcStep s e).1.liveSources = [] ∧
        (lcStep s e).1.liveOutputContext = false) ∧
    (∀ (s : LCState) (e : LEvent),
        s.liveOutputContext = true →
        (lcStep s e).1.liveOutputContext = false →
        (lcStep s e).1.liveSources = []) ∧
    (∀ (s : LCState) (g : Bool),
        s.isLiveActive = true → s.liveSources = [] →
        (lcStep s (.cleanupCall g)).1.liveOutputContext = false ∧
        (g = true → s.hasConfig = true →
          LOut.callEnd ∈ (lcStep s (.cleanupCall g)).2)) := by
  refine ⟨?_, ?_, ?_, ?_⟩
  · intro s g
    refine ⟨cleanupSession_sources s g, ?_⟩
    intro i
    rcases cleanupSession_outs s g with h | h <;>
      simp [lcStep, h]
  · intro s e h
    cases e with
    | startOk => simp [lcStep] at h
    | startFail =>
      exfalso
      simp only [lcStep] at h
      rw [cleanupSession_nonGraceful_outs] at h
      simp at h
    | msgInterrupted sid now =>
      exfalso
      simp [lcStep] at h
    | msgAudio sid d t =>
      exfalso
      simp only [lcStep] at h
      split_ifs at h <;> simp at h
    | msgToolEndCall sid now =>
      exfalso
      simp only [lcStep] at h
      split_ifs at h <;> simp at h
    | srcEnded sid srcId =>
      simp only [lcStep] at h ⊢
      split_ifs at h ⊢ with h1 h2 h3
      · simp at h
      · exact ⟨h2.2, rfl⟩
      · simp at h
      · simp at h
    | wsClose sid now =>
      simp only [lcStep] at h ⊢
      split_ifs at h ⊢ with h1 h2
      · simp at h
      · exact cleanupSession_release s true h
      · simp at h
    | wsError sid =>
      exfalso
      simp only [lcStep] at h
      rw [cleanupSession_nonGraceful_outs] at h
      split_ifs at h <;> simp at h
    | cleanupCall g => exact cleanupSession_release s g h
  · intro s e hctx hclosed
    cases e with
    | startOk => simp [lcStep] at hclosed
    | startFail =>
      simp only [lcStep]
      rw [cleanupSession_sources]
      rfl
    | msgInterrupted sid now =>
      exfalso
      simp [lcStep, hctx] at hclosed
    | msgAudio sid d t =>
      exfalso
      simp [lcStep, hctx] at hclosed
    | msgToolEndCall sid now =>
      exfalso
      simp [lcStep, hctx] at hclosed
    | srcEnded sid srcId =>
      simp only [lcStep] at hclosed ⊢
      split_ifs at hclosed ⊢ with h1 h2
      all_goals first
      | exact h2.2
      | (exfalso; simp [hctx] at hclosed)
    | wsClose sid now =>
      simp only [lcStep] at hclosed ⊢
      split_ifs at hclosed ⊢
      all_goals first
      | exact cleanupSession_ctx_close s true hctx hclosed
      | (exfalso; simp [hctx] at hclosed)
    | wsError sid =>
      simp only [lcStep] at hclosed ⊢
      exact cleanupSession_ctx_close s false hctx hclosed
    | cleanupCall g => exact cleanupSession_ctx_close s g hctx hclosed
  · intro s g hact hempty
    constructor
    · simp [lcStep, cleanupSession, hact, hempty]
    · intro hg hcfg
      simp [lcStep, cleanupSession, hact, hempty, hg, hcfg]

/-- Claim C5 witness: a graceful cleanup on a live session with one
scheduled chunk keeps the chunk, and the immediate-release case on a
session with no chunk. -/
theorem c5_witness :
    ((lcStep { lcLive1 with liveSources := [0] } (.cleanupCall true)).1.liveSources
        = [0] ∧
      (∀ i, LOut.stopped i ∉
        (lcStep { lcLive1 with liveSources := [0] } (.cleanupCall true)).2)) ∧
    ((lcStep lcLive1 (.cleanupCall true)).1.liveOutputContext = false ∧
      (true = true → lcLive1.hasConfig = true →
        LOut.callEnd ∈ (lcStep lcLive1 (.cleanupCall true)).2)) :=
  ⟨⟨(c5_two_phase_teardown.1 { lcLive1 with liveSources := [0] } true).1,
      (c5_two_phase_teardown.1 { lcLive1 with liveSources := [0] } true).2⟩,
    c5_two_phase_teardown.2.2.2 lcLive1 true (by decide) (by decide)⟩

/-- Claim C7 counterexample: a backend error arriving while a chunk is
still scheduled does notify onUnrecoverableError, but the non-graceful
cleanup does wait for the in-flight audio: the chunk is not stopped, stays
in the source set, and the output pipeline stays open (its release is
deferred to the ended handler). -/
theorem c7_counterexample :
    (lcStep { lcLive1 with liveSources := [0], liveNextStartTime := 5 }
        (.wsError 1)).2 = [LOut.unrecoverableError] ∧
    (lcStep { lcLive1 with liveSources := [0], liveNextStartTime := 5 }
        (.wsError 1)).1.liveOutputContext = true ∧
    (lcStep { lcLive1 with liveSources := [0], liveNextStartTime := 5 }
        (.wsError 1)).1.liveSources = [0] := by decide

/-- Claim C7 (amended): input-device acquisition failure and backend
connection failure (the startSession catch) and backend-reported errors
(onerror) each invoke onUnrecoverableError exactly once and apply
cleanupSession(false) in the same event turn, without the graceful paths
deferral by the remaining scheduled-audio time; the non-graceful flag only
suppresses the end-of-call notification — already-scheduled chunks are not
stopped and the output pipeline release still waits for them. -/
theorem c7_failure_routing :
    (∀ (s : LCState) (sid : Nat), s.hasConfig = true →
        (lcStep s (.wsError sid)).2 = [LOut.unrecoverableError] ∧
        (lcStep s (.wsError sid)).1 = (cleanupSession s false).1 ∧
        (lcStep s (.wsError sid)).1.isLiveActive = false ∧
        (lcStep s (.wsError sid)).1.liveSources = s.liveSources) ∧
    (∀ (s : LCState),
        (lcStep s .startFail).2 =
          [LOut.statusChange "CONNECTING CALL...", LOut.unrecoverableError] ∧
        (lcStep s .startFail).1.isLiveActive = false ∧
        (lcStep s .startFail).1.liveOutputContext = false) := by
  constructor
  · intro s sid hcfg
    refine ⟨?_, by simp [lcStep], ?_, ?_⟩
    · simp [lcStep, cleanupSession_nonGraceful_outs s, hcfg]
    · simpa [lcStep] using cleanupSession_deactivates s false
    · simpa [lcStep] using cleanupSession_sources s false
  · intro s
    refine ⟨?_, ?_, ?_⟩
    · simp [lcStep,
        cleanupSession_nonGraceful_outs
          ({ startFields s with liveInputContext := true, liveOutputContext := true })]
    · simpa [lcStep] using
        cleanupSession_deactivates
          ({ startFields s with liveInputContext := true, liveOutputContext := true }) false
    · simp [lcStep, cleanupSession, startFields]

/-- Claim C7 witness: the amended failure routing at concrete inputs. -/
theorem c7_witness :
    ((lcStep lcLive1 (.wsError 1)).2 = [LOut.unrecoverableError] ∧
      (lcStep lcLive1 (.wsError 1)).1 = (cleanupSession lcLive1 false).1 ∧
      (lcStep lcLive1 (.wsError 1)).1.isLiveActive = false ∧
      (lcStep lcLive1 (.wsError 1)).1.liveSources = lcLive1.liveSources) ∧
    ((lcStep lcInitial .startFail).2 =
        [LOut.statusChange "CONNECTING CALL...", LOut.unrecoverableError] ∧
      (lcStep lcInitial .startFail).1.isLiveActive = false ∧
      (lcStep lcInitial .startFail).1.liveOutputContext = false) :=
  ⟨c7_failure_routing.1 lcLive1 1 (by decide),
    c7_failure_routing.2 lcInitial⟩

/-- Claim C9: cleanupSession on an inactive service returns immediately,
changing no field and invoking no callback; and any second cleanupSession
immediately after a first one is a no-op, whatever the initial state. -/
theorem c9_cleanup_idempotent :
    ∀ (s : LCState) (g : Bool),
      (s.isLiveActive = false → lcStep s (.cleanupCall g) = (s, [])) ∧
      (∀ g2 : Bool,
        lcStep (lcStep s (.cleanupCall g)).1 (.cleanupCall g2) =
          ((lcStep s (.cleanupCall g)).1, [])) := by
  intro s g
  constructor
  · intro h
    exact cleanupSession_inactive_noop s g h
  · intro g2
    exact cleanupSession_inactive_noop _ g2 (cleanupSession_deactivates s g)

/-- Claim C9 witness: a second teardown after a graceful one on a live
session, and a teardown on the never-started service. -/
theorem c9_witness :
    lcStep lcInitial (.cleanupCall true) = (lcInitial, []) ∧
    lcStep (lcStep lcLive1 (.cleanupCall true)).1 (.cleanupCall false) =
      ((lcStep lcLive1 (.cleanupCall true)).1, []) :=
  ⟨(c9_cleanup_idempotent lcInitial true).1 (by decide),
    (c9_cleanup_idempotent lcLive1 true).2 false⟩

end Live

namespace Remote

/-- The mutable fields of RemoteSocketSource: whether a relay WebSocket
object is held, and the stored onAudioData callback (propagateAudio),
identified by an id. -/
structure RSState where
  wsOpen : Bool
  propagateAudio : Option Nat
  deriving DecidableEq, Repr

/-- Events for the RemoteSocketSource: a connect call handing over an
audio callback, a disconnect call, a binary relay frame (its payload
abstracted to a token), a text control message, and the socket close
callback. -/
inductive RSEvent where
  | connect (cb : Nat)
  | disconnect
  | frame (payload : Nat)
  | textMsg (msgType : String)
  | socketClosed
  deriving DecidableEq, Repr

/-- Observable outputs: a frame forwarded to a stored audio callback, and
status updates via onStatusChange. -/
inductive RSOut where
  | forwarded (cb : Nat) (payload : Nat)
  | statusChanged (msg : String)
  deriving DecidableEq, Repr

/-- One handler execution of RemoteSocketSource.  connect stores the
callback and opens the relay socket when none is open; the onmessage
handler forwards a binary frame to the stored callback only when one is
present, and maps control messages to status updates; disconnect closes
and drops the socket and clears the stored callback. -/
def rsStep (s : RSState) : RSEvent → RSState × List RSOut
  | .connect cb =>
    if s.wsOpen = false then
      ({ wsOpen := true, propagateAudio := some cb },
        [RSOut.statusChanged "CONNECTING TO RELAY..."])
    else ({ s with propagateAudio := some cb }, [])
  | .disconnect => ({ wsOpen := false, propagateAudio := none }, [])
  | .frame payload =>
    match s.propagateAudio with
    | some cb => (s, [RSOut.forwarded cb payload])
    | none => (s, [])
  | .textMsg msgType =>
    if msgType = "GUEST_CONNECTED" then (s, [RSOut.statusChanged "CALLER"])
    else if msgType = "GUEST_DISCONNECTED" then
      (s, [RSOut.statusChanged "WAITING FOR CALL..."])
    else (s, [])
  | .socketClosed => (s, [RSOut.statusChanged "RELAY DISCONNECTED"])

/-- Run a list of RemoteSocketSource events. -/
def rsRun (s : RSState) : List RSEvent → RSState × List RSOut
  | [] => (s, [])
  | e :: es =>
    let o := rsStep s e
    let r := rsRun o.1 es
    (r.1, o.2 ++ r.2)

/-- Recognises a connect event. -/
def isConnect : RSEvent → Bool
  | .connect _ => true
  | _ => false

/-- The forwarded-frame outputs in an output list. -/
def forwardsOf (outs : List RSOut) : List RSOut :=
  outs.filter fun o =>
    match o with
    | .forwarded _ _ => true
    | _ => false

theorem rsRun_no_forward (es : List RSEvent) : ∀ (s : RSState),
    s.propagateAudio = none →
    (∀ e ∈ es, isConnect e = false) →
    forwardsOf (rsRun s es).2 = [] ∧ (rsRun s es).1.propagateAudio = none := by
  induction es with
  | nil =>
    intro s hnone _
    exact ⟨rfl, hnone⟩
  | cons e es ih =>
    intro s hnone hall
    have he := hall e (List.mem_cons_self e es)
    have hes : ∀ x ∈ es, isConnect x = false :=
      fun x hx => hall x (List.mem_cons_of_mem e hx)
    have hstep : (rsStep s e).1.propagateAudio = none ∧ forwardsOf (rsStep s e).2 = [] := by
      cases e with
      | connect cb => simp [isConnect] at he
      | disconnect => exact ⟨rfl, rfl⟩
      | frame payload =>
        rw [show rsStep s (.frame payload) = (s, []) by simp [rsStep, hnone]]
        exact ⟨hnone, rfl⟩
      | textMsg msgType =>
        simp only [rsStep]
        split_ifs <;> exact ⟨hnone, rfl⟩
      | socketClosed => exact ⟨hnone, rfl⟩
    obtain ⟨ih1, ih2⟩ := ih (rsStep s e).1 hstep.1 hes
    have hrun : rsRun s (e :: es) =
        ((rsRun (rsStep s e).1 es).1,
          (rsStep s e).2 ++ (rsRun (rsStep s e).1 es).2) := rfl
    rw [hrun]
    constructor
    · show forwardsOf ((rsStep s e).2 ++ (rsRun (rsStep s e).1 es).2) = []
      unfold forwardsOf at hstep ih1 ⊢
      rw [List.filter_append, hstep.2, ih1, List.nil_append]
    · exact ih2

/-- Claim C10: disconnect clears the stored audio callback and closes the
relay socket, and afterwards no relay frame is ever forwarded to an audio
callback as long as connect is not called again. -/
theorem c10_disconnect_stops_forwarding :
    ∀ (s : RSState) (es : List RSEvent),
      (∀ e ∈ es, isConnect e = false) →
      (rsStep s .disconnect).1.propagateAudio = none ∧
      (rsStep s .disconnect).1.wsOpen = false ∧
      (rsStep s .disconnect).2 = [] ∧
      forwardsOf (rsRun (rsStep s .disconnect).1 es).2 = [] := by
  intro s es hall
  refine ⟨rfl, rfl, rfl, ?_⟩
  exact (rsRun_no_forward es (rsStep s .disconnect).1 rfl hall).1

/-- Claim C10 witness: after a connected source (callback 7) disconnects,
frames, control messages and the socket-close event forward nothing. -/
theorem c10_witness :
    (rsStep { wsOpen := true, propagateAudio := some 7 } .disconnect).1.propagateAudio
        = none ∧
    (rsStep { wsOpen := true, propagateAudio := some 7 } .disconnect).1.wsOpen
        = false ∧
    (rsStep { wsOpen := true, propagateAudio := some 7 } .disconnect).2 = [] ∧
    forwardsOf (rsRun (rsStep { wsOpen := true, propagateAudio := some 7 }
        .disconnect).1
      [.frame 1, .textMsg "GUEST_CONNECTED", .frame 2, .socketClosed]).2 = [] :=
  c10_disconnect_stops_forwarding { wsOpen := true, propagateAudio := some 7 }
    [.frame 1, .textMsg "GUEST_CONNECTED", .frame 2, .socketClosed] (by decide)

end Remote

end HorisFM
